import Mathlib

/-!
Verification of the tokenized multi-token vault (`src/lib.rs` and its
collaborators) against its natural-language specification.

The contract sources provide `lib.rs` (entry points `redeem`, `withdraw`,
`resolve_withdraw`, `mt_on_transfer`, `convert_to_shares`, `convert_to_assets`,
`preview_withdraw`) and `multi_token.rs` (trait declarations).  The modules
`internal.rs`, `mul_div.rs` and `contract_standards/` are declared in `lib.rs`
but are not among the sources; the definitions below that embed them are
modelled from the specification and say so in their doc comments.

Machine integers (`u128`) are embedded as `Nat` with explicit `< 2 ^ 128`
bounds at every checked operation; fallible entry points return
`Except String`, an `Except.error` standing for a panicked (and therefore
fully reverted) contract call.
-/

namespace TokenizedVault

/-- Upper bound of the `u128` range: `u128::MAX + 1`. -/
def U128LIMIT : Nat := 2 ^ 128

/-- Rounding directions of the exchange-rate engine (`mul_div::Rounding`). -/
inductive Rounding where
  | Down : Rounding
  | Up : Rounding
deriving DecidableEq, Repr

/-- Modelled from the spec: `mul_div.rs` is absent from the sources.  §4.1:
"`Down` truncates; `Up` computes `ceil(num/den) = (num + den - 1) / den`,
using wide (double-width) intermediate arithmetic so the numerator
multiplication never overflows the native unsigned-128-bit range."  Over `Nat`
the product `a * b` is exact, which is precisely what the double-width
intermediate guarantees for `u128` operands. -/
def mulDiv (a b den : Nat) (r : Rounding) : Nat :=
  match r with
  | .Down => a * b / den
  | .Up => (a * b + den - 1) / den

/-- Modelled from the spec: `internal.rs` is absent from the sources.  §4.1
bootstrap rule ("if `total_shares == 0` ... `shares_for_assets` returns
`assets` unchanged") and steady-state rule
("`shares_for_assets(a) = round(a * total_shares / (total_assets + 1))`"). -/
def internal_convert_to_shares (total_assets total_shares assets : Nat)
    (r : Rounding) : Nat :=
  if total_shares = 0 then assets
  else mulDiv assets total_shares (total_assets + 1) r

/-- Modelled from the spec: `internal.rs` is absent from the sources.  §4.1
bootstrap rule ("`assets_for_shares` returns `shares` unchanged") and
steady-state rule
("`assets_for_shares(s) = round(s * (total_assets + 1) / total_shares)`"). -/
def internal_convert_to_assets (total_assets total_shares shares : Nat)
    (r : Rounding) : Nat :=
  if total_shares = 0 then shares
  else mulDiv shares (total_assets + 1) total_shares r

/-- The mathematically exact rounded value of the rational `num / den`
(for `den > 0`): truncation for `Down`, true ceiling for `Up`.  Used as the
specification-side yardstick the engine is compared against. -/
def exactRound (r : Rounding) (num den : Nat) : Nat :=
  match r with
  | .Down => num / den
  | .Up => num / den + (if den ∣ num then 0 else 1)

abbrev AccountId := String

/-- The share ledger (the `FungibleToken` field of the contract): per-account
balances as an association list plus the total issued supply.  Modelled from
the spec: the Share Ledger collaborator (§1) exposing
`credit`/`debit`/`balance_of`/`total_issued`, matching the NEP-141 ledger the
source delegates to. -/
structure FungibleToken where
  accounts : List (AccountId × Nat)
  total_supply : Nat
deriving DecidableEq, Repr

/-- Balance lookup; an absent account reads as balance `0`. -/
def lookupBal : List (AccountId × Nat) → AccountId → Nat
  | [], _ => 0
  | (b, v) :: rest, a => if b = a then v else lookupBal rest a

/-- Replace (or append) the balance entry of one account. -/
def setBal : List (AccountId × Nat) → AccountId → Nat → List (AccountId × Nat)
  | [], a, v => [(a, v)]
  | (b, w) :: rest, a, v =>
      if b = a then (b, v) :: rest else (b, w) :: setBal rest a v

/-- The balance of `a` in ledger `t`. -/
def FungibleToken.balance_of (t : FungibleToken) (a : AccountId) : Nat :=
  lookupBal t.accounts a

/-- Modelled from the spec: the Share Ledger's `credit(account, amount)` (§1),
as realised by the NEP-141 `internal_deposit` the source calls: checked `u128`
add of the account balance and of the total supply, aborting the call on
overflow. -/
def FungibleToken.internal_deposit (t : FungibleToken) (a : AccountId)
    (amount : Nat) : Except String FungibleToken :=
  let b := t.balance_of a
  if b + amount < U128LIMIT then
    if t.total_supply + amount < U128LIMIT then
      .ok { accounts := setBal t.accounts a (b + amount),
            total_supply := t.total_supply + amount }
    else .error "Total supply overflow"
  else .error "Balance overflow"

/-- Modelled from the spec: the Share Ledger's `debit(account, amount)` (§1),
"fails if insufficient", as realised by the NEP-141 `internal_withdraw` the
source calls: aborts when the balance is smaller than the debit. -/
def FungibleToken.internal_withdraw (t : FungibleToken) (a : AccountId)
    (amount : Nat) : Except String FungibleToken :=
  let b := t.balance_of a
  if amount ≤ b then
    if amount ≤ t.total_supply then
      .ok { accounts := setBal t.accounts a (b - amount),
            total_supply := t.total_supply - amount }
    else .error "Total supply overflow"
  else .error "The account does not have enough balance"

/-- The vault state (`TokenizedMTVault` in `lib.rs`).  The share-token
metadata field is plumbing with no behaviour and is omitted. -/
structure TokenizedMTVault where
  token : FungibleToken
  asset : AccountId
  asset_token_id : String
  total_assets : Nat
  owner : AccountId
deriving DecidableEq, Repr

/-- `convert_to_shares` (`lib.rs` line 186): deposit valuation, rounding
`Down`, over the vault's `total_assets` and the ledger's total supply. -/
def TokenizedMTVault.convert_to_shares (v : TokenizedMTVault)
    (assets : Nat) : Nat :=
  internal_convert_to_shares v.total_assets v.token.total_supply assets .Down

/-- `convert_to_assets` (`lib.rs` line 190): redeem valuation, rounding
`Down`. -/
def TokenizedMTVault.convert_to_assets (v : TokenizedMTVault)
    (shares : Nat) : Nat :=
  internal_convert_to_assets v.total_assets v.token.total_supply shares .Down

/-- `preview_withdraw` (`lib.rs` line 194): shares needed for a withdrawal,
rounding `Up`. -/
def TokenizedMTVault.preview_withdraw (v : TokenizedMTVault)
    (assets : Nat) : Nat :=
  internal_convert_to_shares v.total_assets v.token.total_supply assets .Up

/-- Modelled from the spec: `internal.rs` is absent.  §4.3: `redeem` "fails if
`shares` exceeds the caller's maximum redeemable (their share balance)". -/
def TokenizedMTVault.max_redeem (v : TokenizedMTVault) (a : AccountId) : Nat :=
  v.token.balance_of a

/-- Modelled from the spec: `internal.rs` is absent.  §4.3: `withdraw` "fails
if `assets` exceeds the caller's maximum withdrawable (the assets their
balance currently converts to)". -/
def TokenizedMTVault.max_withdraw (v : TokenizedMTVault) (a : AccountId) : Nat :=
  v.convert_to_assets (v.max_redeem a)

/-- The pending-withdrawal context (§3): the argument set `lib.rs`'s
`internal_execute_withdrawal` carries into `resolve_withdraw`.  The memo is
plumbing and is omitted. -/
structure WithdrawContext where
  owner : AccountId
  receiver : AccountId
  shares : Nat
  assets : Nat
deriving DecidableEq, Repr

/-- Modelled from the spec: `internal.rs` is absent.  §4.3 "State Committing":
debit `shares` from the caller's share balance (fails the whole call if the
balance is insufficient); `total_assets -= assets` (checked subtract); capture
the continuation context `{owner, receiver, shares, assets}` carried into the
asynchronous transfer and its resolution. -/
def internal_execute_withdrawal (v : TokenizedMTVault) (owner : AccountId)
    (receiver_id : Option AccountId) (shares assets : Nat) :
    Except String (TokenizedMTVault × WithdrawContext) := do
  let token1 ← v.token.internal_withdraw owner shares
  if assets ≤ v.total_assets then
    .ok ({ v with token := token1, total_assets := v.total_assets - assets },
         { owner := owner, receiver := receiver_id.getD owner,
           shares := shares, assets := assets })
  else .error "Total assets underflow"

/-- Outcome of the asynchronous `mt_transfer` promise observed by
`resolve_withdraw` through `env::promise_result(0)`. -/
inductive PromiseResult where
  | Successful : PromiseResult
  | Failed : PromiseResult
deriving DecidableEq, Repr

/-- `resolve_withdraw` (`lib.rs` lines 68-115).  On a successful transfer it
only emits the withdrawal event and returns `assets`; on a failed transfer it
re-credits the burned shares to the owner (`internal_deposit`), restores
`total_assets` with a checked add, and returns `0`. -/
def resolve_withdraw (v : TokenizedMTVault) (owner : AccountId)
    (_receiver : AccountId) (shares assets : Nat) (result : PromiseResult) :
    Except String (Nat × TokenizedMTVault) :=
  match result with
  | .Successful => .ok (assets, v)
  | .Failed => do
      let token1 ← v.token.internal_deposit owner shares
      if v.total_assets + assets < U128LIMIT then
        .ok (0, { v with token := token1,
                         total_assets := v.total_assets + assets })
      else .error "Total assets overflow"

/-- `redeem` (`lib.rs` lines 133-158), synchronous part: require exactly one
yoctoNEAR attached (`assert_one_yocto`), bound-check against `max_redeem`,
value the shares at `Rounding::Down`, then run the committing step.
`attached` is the attached deposit in yoctoNEAR; `caller` is the predecessor
account. -/
def TokenizedMTVault.redeem (v : TokenizedMTVault) (caller : AccountId)
    (attached : Nat) (shares : Nat) (receiver_id : Option AccountId) :
    Except String (TokenizedMTVault × WithdrawContext) :=
  if attached ≠ 1 then
    .error "Requires attached deposit of exactly 1 yoctoNEAR"
  else if shares ≤ v.max_redeem caller then
    internal_execute_withdrawal v caller receiver_id shares
      (internal_convert_to_assets v.total_assets v.token.total_supply shares
        .Down)
  else .error "Exceeds max redeem"

/-- `withdraw` (`lib.rs` lines 160-184), synchronous part: require exactly one
yoctoNEAR attached, bound-check against `max_withdraw`, convert the requested
assets to shares at `Rounding::Up`, then run the committing step. -/
def TokenizedMTVault.withdraw (v : TokenizedMTVault) (caller : AccountId)
    (attached : Nat) (assets : Nat) (receiver_id : Option AccountId) :
    Except String (TokenizedMTVault × WithdrawContext) :=
  if attached ≠ 1 then
    .error "Requires attached deposit of exactly 1 yoctoNEAR"
  else if assets ≤ v.max_withdraw caller then
    internal_execute_withdrawal v caller receiver_id
      (internal_convert_to_shares v.total_assets v.token.total_supply assets
        .Up)
      assets
  else .error "Exceeds max withdraw"

/-- Modelled from the spec: §4.3 "State Pending" / §6 — the external ledger
either moves `assets` of the underlying token to the receiver (outcome
`Successful`) or moves nothing (outcome `Failed`).  `recvBal` is the
receiver's balance on the external asset ledger. -/
def externalTransfer (recvBal assets : Nat) (result : PromiseResult) : Nat :=
  match result with
  | .Successful => recvBal + assets
  | .Failed => recvBal

/-- One complete withdrawal lifecycle from a committed context: the external
transfer happens (or fails), then `resolve_withdraw` reconciles.  Returns the
call's result value, the final vault state and the receiver's final external
balance. -/
def settleWithdrawal (v : TokenizedMTVault) (ctx : WithdrawContext)
    (recvBal : Nat) (result : PromiseResult) :
    Except String (Nat × TokenizedMTVault × Nat) := do
  let (ret, v2) ← resolve_withdraw v ctx.owner ctx.receiver ctx.shares
    ctx.assets result
  .ok (ret, v2, externalTransfer recvBal ctx.assets result)

/-- A full `redeem` call as observed once its asynchronous transfer has
resolved. -/
def redeemFlow (v : TokenizedMTVault) (caller : AccountId) (attached : Nat)
    (shares : Nat) (receiver_id : Option AccountId) (recvBal : Nat)
    (result : PromiseResult) : Except String (Nat × TokenizedMTVault × Nat) := do
  let (v1, ctx) ← v.redeem caller attached shares receiver_id
  settleWithdrawal v1 ctx recvBal result

/-- A full `withdraw` call as observed once its asynchronous transfer has
resolved. -/
def withdrawFlow (v : TokenizedMTVault) (caller : AccountId) (attached : Nat)
    (assets : Nat) (receiver_id : Option AccountId) (recvBal : Nat)
    (result : PromiseResult) : Except String (Nat × TokenizedMTVault × Nat) := do
  let (v1, ctx) ← v.withdraw caller attached assets receiver_id
  settleWithdrawal v1 ctx recvBal result

/-- The deposit directive (`DepositMessage` in `lib.rs`).  The JSON text of
the `msg` argument is plumbing; an unparsable message yields the all-`none`
default (`lib.rs` lines 224-232), so the embedding takes the parsed directive
directly. -/
structure DepositMessage where
  min_shares : Option Nat
  max_shares : Option Nat
  receiver_id : Option AccountId
  memo : Option String
deriving DecidableEq, Repr

/-- The default directive used when `msg` fails to parse. -/
def DepositMessage.noDirective : DepositMessage :=
  { min_shares := none, max_shares := none, receiver_id := none, memo := none }

/-- `mt_on_transfer` (`lib.rs` lines 201-293).  `predecessor` is
`env::predecessor_account_id()`.  The four structural validations are
`assert_eq!` in the source and abort the call (`Except.error`); the
`min_shares` slippage guard returns the full amount as unused without
touching state; otherwise shares are capped by `max_shares`, the used amount
is valued at `Rounding::Up`, the unused amount is a checked subtraction, a
zero used amount aborts, and the commit credits the shares and adds the used
amount to `total_assets` with a checked add. -/
def minSharesReject (msg : DepositMessage) (calculated_shares : Nat) : Bool :=
  match msg.min_shares with
  | some m => calculated_shares < m
  | none => false

/-- The `max_shares` cap of `lib.rs` lines 244-252. -/
def capShares (msg : DepositMessage) (calculated_shares : Nat) : Nat :=
  match msg.max_shares with
  | some mx => if calculated_shares > mx then mx else calculated_shares
  | none => calculated_shares

/-- The tail of `mt_on_transfer` (`lib.rs` lines 244-293) after the slippage
guard: cap the shares at `max_shares`, value the used amount at
`Rounding::Up`, checked-subtract to get the unused amount, abort on a zero
used amount, then commit (credit shares, checked add to `total_assets`). -/
def depositCommit (v : TokenizedMTVault) (sender_id : AccountId) (amount : Nat)
    (msg : DepositMessage) : Except String (List Nat × TokenizedMTVault) :=
  let calculated_shares := v.convert_to_shares amount
  let shares := capShares msg calculated_shares
  let used_amount :=
    internal_convert_to_assets v.total_assets v.token.total_supply shares .Up
  if used_amount ≤ amount then
    if used_amount > 0 then do
      let owner_id := msg.receiver_id.getD sender_id
      let token1 ← v.token.internal_deposit owner_id shares
      if v.total_assets + used_amount < U128LIMIT then
        .ok ([amount - used_amount],
             { v with token := token1,
                      total_assets := v.total_assets + used_amount })
      else .error "Total assets overflow"
    else .error "No assets to deposit"
  else .error "Overflow in unused amount calculation"

def mt_on_transfer (v : TokenizedMTVault) (predecessor sender_id : AccountId)
    (token_ids : List String) (amounts : List Nat) (msg : DepositMessage) :
    Except String (List Nat × TokenizedMTVault) :=
  if predecessor ≠ v.asset then
    .error "Only the underlying asset can be deposited"
  else if token_ids.length ≠ 1 then
    .error "Only single token deposits supported"
  else if amounts.length ≠ 1 then
    .error "Only single token deposits supported"
  else if token_ids.getD 0 "" ≠ v.asset_token_id then
    .error "Only the configured token_id can be deposited"
  else
    let amount := amounts.getD 0 0
    if minSharesReject msg (v.convert_to_shares amount) then
      .ok ([amount], v)
    else depositCommit v sender_id amount msg

/-- Modelled from the spec: §6 / §7 — the transfer-and-notify protocol of the
external asset ledger (NEP-245, see `mt_resolve_transfer` of the mock asset
contract) observes an aborted notify callback as "nothing used": the full
amount is refunded and the vault's state changes, if any, are reverted.  This
wraps `mt_on_transfer` into the unused-amount outcome the depositor sees. -/
def depositObservable (v : TokenizedMTVault) (predecessor sender_id : AccountId)
    (token_ids : List String) (amounts : List Nat) (msg : DepositMessage) :
    List Nat × TokenizedMTVault :=
  match mt_on_transfer v predecessor sender_id token_ids amounts msg with
  | .ok r => r
  | .error _ => ([amounts.getD 0 0], v)

/-! ### Ledger bookkeeping lemmas -/

theorem lookupBal_setBal_same (l : List (AccountId × Nat)) (a : AccountId)
    (v : Nat) : lookupBal (setBal l a v) a = v := by
  induction l with
  | nil => simp [setBal, lookupBal]
  | cons p rest ih =>
      obtain ⟨b, w⟩ := p
      by_cases hb : b = a
      · simp [setBal, lookupBal, hb]
      · simp [setBal, lookupBal, hb, ih]

theorem lookupBal_setBal_other (l : List (AccountId × Nat)) (a c : AccountId)
    (v : Nat) (hca : c ≠ a) : lookupBal (setBal l a v) c = lookupBal l c := by
  have hac : a ≠ c := Ne.symm hca
  induction l with
  | nil => simp [setBal, lookupBal, hac]
  | cons p rest ih =>
      obtain ⟨b, w⟩ := p
      by_cases hb : b = a
      · subst hb
        simp [setBal, lookupBal, hac]
      · simp only [setBal, if_neg hb, lookupBal]
        by_cases hc : b = c <;> simp [hc, ih]

/-! ### Exchange-rate engine lemmas -/

/-- The `(num + den - 1) / den` trick of `Rounding::Up` computes the true
ceiling of `num / den`. -/
theorem up_div_eq_exact (num den : Nat) (hden : den ≠ 0) :
    (num + den - 1) / den = num / den + (if den ∣ num then 0 else 1) := by
  have hpos : 0 < den := Nat.pos_of_ne_zero hden
  rcases Nat.eq_zero_or_pos num with h0 | hnum
  · subst h0
    simp [Nat.div_eq_of_lt (Nat.sub_lt hpos Nat.one_pos)]
  · have hrw : num + den - 1 = num - 1 + den := by omega
    rw [hrw, Nat.add_div_right _ hpos]
    have hsd : (num - 1 + 1) / den
        = (num - 1) / den + if den ∣ num - 1 + 1 then 1 else 0 :=
      Nat.succ_div (num - 1) den
    have hn1 : num - 1 + 1 = num := Nat.succ_pred_eq_of_pos hnum
    rw [hn1] at hsd
    by_cases hdvd : den ∣ num
    · have h1 : 1 ≤ num / den := (Nat.one_le_div_iff hpos).2 (Nat.le_of_dvd hnum hdvd)
      rw [if_pos hdvd] at hsd ⊢
      omega
    · rw [if_neg hdvd] at hsd ⊢
      omega

theorem mulDiv_down_exact (a b den : Nat) :
    mulDiv a b den .Down = exactRound .Down (a * b) den := rfl

theorem mulDiv_up_exact (a b den : Nat) (hden : den ≠ 0) :
    mulDiv a b den .Up = exactRound .Up (a * b) den :=
  up_div_eq_exact (a * b) den hden

/-- The cap applied by `max_shares` never increases the computed shares. -/
theorem capShares_le (msg : DepositMessage) (c : Nat) : capShares msg c ≤ c := by
  unfold capShares
  cases msg.max_shares with
  | none => exact Nat.le_refl c
  | some mx =>
      by_cases h : c > mx
      · simp only [if_pos h]
        omega
      · simp only [if_neg h]
        exact Nat.le_refl c

/-- Round-trip inequality: valuing (at `Up`) any share count at most the
`Down`-rounded share value of `a` assets never exceeds `a`.  This is what
makes the deposit's checked subtraction `amount - used_amount` safe. -/
theorem convert_roundtrip_le (ta ts a s : Nat)
    (hs : s ≤ internal_convert_to_shares ta ts a .Down) :
    internal_convert_to_assets ta ts s .Up ≤ a := by
  by_cases hts : ts = 0
  · simpa [internal_convert_to_assets, hts] using
      hs.trans_eq (by simp [internal_convert_to_shares, hts])
  · have hpos : 0 < ts := Nat.pos_of_ne_zero hts
    have hs' : s ≤ a * ts / (ta + 1) := by
      simpa [internal_convert_to_shares, hts, mulDiv] using hs
    have hmul : s * (ta + 1) ≤ a * ts :=
      (Nat.le_div_iff_mul_le (Nat.succ_pos ta)).1 hs'
    have : (s * (ta + 1) + ts - 1) / ts ≤ a := by
      rw [Nat.div_le_iff_le_mul_add_pred hpos]
      have : a * ts = ts * a := Nat.mul_comm a ts
      omega
    simpa [internal_convert_to_assets, hts, mulDiv] using this

/-! ### Structure of the withdrawal operations -/

/-- Anatomy of a successful committing step: the bound facts it checked and
the exact shape of the post-commit state and captured context. -/
theorem internal_execute_withdrawal_ok (v : TokenizedMTVault)
    (owner : AccountId) (rid : Option AccountId) (shares assets : Nat)
    (v1 : TokenizedMTVault) (ctx : WithdrawContext)
    (h : internal_execute_withdrawal v owner rid shares assets
      = .ok (v1, ctx)) :
    shares ≤ v.token.balance_of owner ∧ shares ≤ v.token.total_supply ∧
    assets ≤ v.total_assets ∧
    ctx.owner = owner ∧ ctx.receiver = rid.getD owner ∧
    ctx.shares = shares ∧ ctx.assets = assets ∧
    v1.token.accounts
      = setBal v.token.accounts owner (v.token.balance_of owner - shares) ∧
    v1.token.total_supply = v.token.total_supply - shares ∧
    v1.total_assets = v.total_assets - assets ∧
    v1.asset = v.asset ∧ v1.asset_token_id = v.asset_token_id ∧
    v1.owner = v.owner := by
  by_cases h1 : shares ≤ v.token.balance_of owner
  · by_cases h2 : shares ≤ v.token.total_supply
    · by_cases h3 : assets ≤ v.total_assets
      · simp only [internal_execute_withdrawal, FungibleToken.internal_withdraw,
          if_pos h1, if_pos h2, if_pos h3, bind, Except.bind, Except.ok.injEq,
          Prod.mk.injEq] at h
        obtain ⟨hv1, hctx⟩ := h
        subst hv1; subst hctx
        refine ⟨h1, h2, h3, rfl, rfl, rfl, rfl, rfl, rfl, rfl, rfl, rfl, rfl⟩
      · simp only [internal_execute_withdrawal, FungibleToken.internal_withdraw,
          if_pos h1, if_pos h2, if_neg h3, bind, Except.bind] at h
        exact absurd h (by simp)
    · simp only [internal_execute_withdrawal, FungibleToken.internal_withdraw,
        if_pos h1, if_neg h2, bind, Except.bind] at h
      exact absurd h (by simp)
  · simp only [internal_execute_withdrawal, FungibleToken.internal_withdraw,
      if_neg h1, bind, Except.bind] at h
    exact absurd h (by simp)

/-- Anatomy of a successful rollback: the failed-transfer branch of
`resolve_withdraw` re-credits the shares and restores `total_assets`. -/
theorem resolve_withdraw_failed_ok (v : TokenizedMTVault)
    (owner receiver : AccountId) (shares assets ret : Nat)
    (v2 : TokenizedMTVault)
    (h : resolve_withdraw v owner receiver shares assets .Failed
      = .ok (ret, v2)) :
    ret = 0 ∧
    v2.token.accounts
      = setBal v.token.accounts owner (v.token.balance_of owner + shares) ∧
    v2.token.total_supply = v.token.total_supply + shares ∧
    v2.total_assets = v.total_assets + assets ∧
    v2.asset = v.asset ∧ v2.asset_token_id = v.asset_token_id ∧
    v2.owner = v.owner := by
  by_cases h1 : v.token.balance_of owner + shares < U128LIMIT
  · by_cases h2 : v.token.total_supply + shares < U128LIMIT
    · by_cases h3 : v.total_assets + assets < U128LIMIT
      · simp only [resolve_withdraw, FungibleToken.internal_deposit,
          if_pos h1, if_pos h2, if_pos h3, bind, Except.bind, Except.ok.injEq,
          Prod.mk.injEq] at h
        obtain ⟨hret, hv2⟩ := h
        subst hv2
        exact ⟨hret.symm, rfl, rfl, rfl, rfl, rfl, rfl⟩
      · simp only [resolve_withdraw, FungibleToken.internal_deposit,
          if_pos h1, if_pos h2, if_neg h3, bind, Except.bind] at h
        exact absurd h (by simp)
    · simp only [resolve_withdraw, FungibleToken.internal_deposit,
        if_pos h1, if_neg h2, bind, Except.bind] at h
      exact absurd h (by simp)
  · simp only [resolve_withdraw, FungibleToken.internal_deposit,
      if_neg h1, bind, Except.bind] at h
    exact absurd h (by simp)

/-! ### Concrete fixtures

A vault holding 1000 assets against 1000 issued shares, all owned by
`alice` (the state reached by the first integration-test deposit), and a
freshly initialised empty vault. -/

def sampleVault : TokenizedMTVault :=
  { token := { accounts := [("alice", 1000)], total_supply := 1000 },
    asset := "usdt", asset_token_id := "token1", total_assets := 1000,
    owner := "owner" }

def emptyVault : TokenizedMTVault :=
  { token := { accounts := [], total_supply := 0 },
    asset := "usdt", asset_token_id := "token1", total_assets := 0,
    owner := "owner" }

def halfVault : TokenizedMTVault :=
  { token := { accounts := [("alice", 500)], total_supply := 500 },
    asset := "usdt", asset_token_id := "token1", total_assets := 500,
    owner := "owner" }

/-! ### Claim theorems -/

/-- C10: when the withdrawal resolution callback observes a successful
transfer outcome it mutates no vault state at all — the returned state is the
input state itself (so every share balance, the total issued shares and
`total_assets` are identical), and the callback returns the `assets`
amount. -/
theorem C10_resolve_success_is_pure (v : TokenizedMTVault)
    (owner receiver : AccountId) (shares assets : Nat) :
    resolve_withdraw v owner receiver shares assets .Successful
      = .ok (assets, v) := rfl

/-- C9: `redeem` and `withdraw` require exactly one yoctoNEAR attached; any
other attached deposit aborts the call with the `assert_one_yocto` failure —
before the bound checks, the share debit or the `total_assets` mutation ever
run, whatever the vault state (so all state is left unchanged, the aborted
call returning no new state). -/
theorem C9_one_yocto_required (v : TokenizedMTVault) (caller : AccountId)
    (attached shares assets : Nat) (rid : Option AccountId)
    (h : attached ≠ 1) :
    v.redeem caller attached shares rid
      = .error "Requires attached deposit of exactly 1 yoctoNEAR" ∧
    v.withdraw caller attached assets rid
      = .error "Requires attached deposit of exactly 1 yoctoNEAR" :=
  ⟨by rw [TokenizedMTVault.redeem, if_pos h],
   by rw [TokenizedMTVault.withdraw, if_pos h]⟩

/-- Witness for C9: with no deposit attached, redeeming or withdrawing from
the empty vault aborts with the one-yocto failure even though the bound
checks would also have failed — the deposit check comes first. -/
theorem C9_one_yocto_required_witness :
    (0 : Nat) ≠ 1 ∧
    (emptyVault.redeem "alice" 0 5 none
        = .error "Requires attached deposit of exactly 1 yoctoNEAR" ∧
     emptyVault.withdraw "alice" 0 7 none
        = .error "Requires attached deposit of exactly 1 yoctoNEAR") :=
  ⟨by decide, C9_one_yocto_required emptyVault "alice" 0 5 7 none (by decide)⟩

/-- C2: the conversion functions implement the bootstrap rule (empty share
supply converts 1:1 in both directions) and otherwise the steady-state
formulas `shares = round(a * total_shares / (total_assets + 1))` and
`assets = round(s * (total_assets + 1) / total_shares)`, with the `+1`
virtual offset on `total_assets` only, in the requested rounding
direction (`exactRound` is true truncation/ceiling). -/
theorem C2_conversion_formulas (ta ts a s : Nat) (r : Rounding) :
    (ts = 0 → internal_convert_to_shares ta ts a r = a ∧
      internal_convert_to_assets ta ts s r = s) ∧
    (ts ≠ 0 → internal_convert_to_shares ta ts a r
        = exactRound r (a * ts) (ta + 1) ∧
      internal_convert_to_assets ta ts s r
        = exactRound r (s * (ta + 1)) ts) := by
  constructor
  · intro h
    simp [internal_convert_to_shares, internal_convert_to_assets, h]
  · intro h
    constructor
    · cases r with
      | Down =>
          simp [internal_convert_to_shares, h, mulDiv_down_exact]
      | Up =>
          simp only [internal_convert_to_shares, if_neg h]
          exact mulDiv_up_exact a ts (ta + 1) (Nat.succ_ne_zero ta)
    · cases r with
      | Down =>
          simp [internal_convert_to_assets, h, mulDiv_down_exact]
      | Up =>
          simp only [internal_convert_to_assets, if_neg h]
          exact mulDiv_up_exact s (ta + 1) ts h

/-- Witness for C2: at `total_assets = 1000`, `total_shares = 1000` the
formulas give `shares_for_assets(500) = floor(500·1000/1001) = 499` and
`assets_for_shares(500) = floor(500·1001/1000) = 500`; on an empty vault
`shares_for_assets(777) = 777`. -/
theorem C2_conversion_formulas_witness :
    internal_convert_to_shares 1000 1000 500 .Down = 499 ∧
    internal_convert_to_assets 1000 1000 500 .Down = 500 ∧
    internal_convert_to_shares 0 0 777 .Down = 777 := by
  have h := (C2_conversion_formulas 1000 1000 500 500 .Down).2 (by decide)
  have h0 := (C2_conversion_formulas 0 0 777 777 .Down).1 rfl
  refine ⟨?_, ?_, h0.1⟩
  · rw [h.1]; decide
  · rw [h.2]; decide

/-- C8 counterexample: the claim quantifies over all operand values up to
`u128::MAX`, but at `total_assets = 0`, `total_shares = 2`,
`amount = u128::MAX` the mathematically correct truncated result of
`shares_for_assets` is at least `2^128`, so no `u128`-returning conversion
can return it — "never panics, never wraps and returns the mathematically
correct result" cannot all hold at this input. -/
theorem C8_counterexample :
    U128LIMIT ≤ internal_convert_to_shares 0 2 (U128LIMIT - 1) .Down := by
  decide

/-- C8 (amended): for all `u128` operands the double-width numerator
`a * b` stays below `2^256` (so the widened multiply never overflows), and
whenever the divisor is nonzero `mulDiv` computes the exact truncated
(`Down`) or exact ceiling (`Up`) value of the rational `a·b/den` — in
particular it returns the mathematically correct result, without wrapping,
whenever that result is representable. -/
theorem C8_wide_mul_div_exact (a b den : Nat) (r : Rounding)
    (ha : a < U128LIMIT) (hb : b < U128LIMIT) (hden : den ≠ 0) :
    a * b < 2 ^ 256 ∧ mulDiv a b den r = exactRound r (a * b) den := by
  constructor
  · calc a * b < U128LIMIT * U128LIMIT :=
          Nat.mul_lt_mul_of_lt_of_lt ha hb
      _ = 2 ^ 256 := by norm_num [U128LIMIT]
  · cases r with
    | Down => exact mulDiv_down_exact a b den
    | Up => exact mulDiv_up_exact a b den hden

/-- Witness for C8 (amended): at `a = b = den = u128::MAX` (the extreme
`u128` operands) the numerator fits double-width arithmetic and the `Up`
result is the exact ceiling. -/
theorem C8_wide_mul_div_exact_witness :
    ((U128LIMIT - 1) < U128LIMIT ∧ (U128LIMIT - 1 : Nat) ≠ 0) ∧
    ((U128LIMIT - 1) * (U128LIMIT - 1) < 2 ^ 256 ∧
      mulDiv (U128LIMIT - 1) (U128LIMIT - 1) (U128LIMIT - 1) .Up
        = exactRound .Up ((U128LIMIT - 1) * (U128LIMIT - 1)) (U128LIMIT - 1)) :=
  ⟨⟨by decide, by decide⟩,
   C8_wide_mul_div_exact (U128LIMIT - 1) (U128LIMIT - 1) (U128LIMIT - 1) .Up
     (by decide) (by decide) (by decide)⟩

/-- C3: the rounding direction of each vault operation is fixed:
`convert_to_shares` (deposit valuation) truncates (`Down`),
`convert_to_assets` (redeem valuation) truncates, `preview_withdraw` takes
the ceiling (`Up`), a `redeem`'s payout is the truncated share value, and a
`withdraw` burns the ceiling share count — payouts round down, burns round
up. -/
theorem C3_fixed_rounding_directions (v : TokenizedMTVault)
    (a s sharesArg assetsArg : Nat) (caller : AccountId)
    (rid : Option AccountId) (hts : v.token.total_supply ≠ 0) :
    v.convert_to_shares a
      = a * v.token.total_supply / (v.total_assets + 1) ∧
    v.convert_to_assets s
      = s * (v.total_assets + 1) / v.token.total_supply ∧
    v.preview_withdraw a
      = exactRound .Up (a * v.token.total_supply) (v.total_assets + 1) ∧
    (∀ v1 ctx, v.redeem caller 1 sharesArg rid = .ok (v1, ctx) →
      ctx.assets = sharesArg * (v.total_assets + 1) / v.token.total_supply) ∧
    (∀ v1 ctx, v.withdraw caller 1 assetsArg rid = .ok (v1, ctx) →
      ctx.shares
        = exactRound .Up (assetsArg * v.token.total_supply)
            (v.total_assets + 1)) := by
  refine ⟨?_, ?_, ?_, ?_, ?_⟩
  · simp [TokenizedMTVault.convert_to_shares, internal_convert_to_shares,
      hts, mulDiv]
  · simp [TokenizedMTVault.convert_to_assets, internal_convert_to_assets,
      hts, mulDiv]
  · simp only [TokenizedMTVault.preview_withdraw, internal_convert_to_shares,
      if_neg hts]
    exact mulDiv_up_exact a v.token.total_supply (v.total_assets + 1)
      (Nat.succ_ne_zero _)
  · intro v1 ctx h
    rw [TokenizedMTVault.redeem, if_neg (by simp)] at h
    by_cases hb : sharesArg ≤ v.max_redeem caller
    · rw [if_pos hb] at h
      have hx := internal_execute_withdrawal_ok v caller rid sharesArg _ v1
        ctx h
      rw [hx.2.2.2.2.2.2.1]
      simp [internal_convert_to_assets, hts, mulDiv]
    · rw [if_neg hb] at h
      exact absurd h (by simp)
  · intro v1 ctx h
    rw [TokenizedMTVault.withdraw, if_neg (by simp)] at h
    by_cases hb : assetsArg ≤ v.max_withdraw caller
    · rw [if_pos hb] at h
      have hx := internal_execute_withdrawal_ok v caller rid _ assetsArg v1
        ctx h
      rw [hx.2.2.2.2.2.1]
      simp only [internal_convert_to_shares, if_neg hts]
      exact mulDiv_up_exact assetsArg v.token.total_supply
        (v.total_assets + 1) (Nat.succ_ne_zero _)
    · rw [if_neg hb] at h
      exact absurd h (by simp)

/-- Witness for C3: on the 1000-asset / 1000-share vault,
`convert_to_shares(500) = 499` (truncated), `convert_to_assets(500) = 500`
(truncated), `preview_withdraw(500) = 500` (ceiling). -/
theorem C3_fixed_rounding_directions_witness :
    sampleVault.token.total_supply ≠ 0 ∧
    sampleVault.convert_to_shares 500 = 499 ∧
    sampleVault.convert_to_assets 500 = 500 ∧
    sampleVault.preview_withdraw 500 = 500 := by
  have h := C3_fixed_rounding_directions sampleVault 500 500 500 500 "alice"
    none (by decide)
  refine ⟨by decide, ?_, ?_, ?_⟩
  · rw [h.1]; decide
  · rw [h.2.1]; decide
  · rw [h.2.2.1]; decide

/-- C4 counterexample: on a structural mismatch the deposit callback does
not yield `[original_amount]` — it raises an error (the source's
`assert_eq!` panics): shown for a wrong source contract, a two-token batch
and a wrong token id, against the claim's predicted `.ok ([amount], v)`. -/
theorem C4_counterexample :
    mt_on_transfer sampleVault "intruder" "alice" ["token1"] [1000]
        DepositMessage.noDirective
      = .error "Only the underlying asset can be deposited" ∧
    mt_on_transfer sampleVault "usdt" "alice" ["token1", "token1"] [500, 500]
        DepositMessage.noDirective
      = .error "Only single token deposits supported" ∧
    mt_on_transfer sampleVault "usdt" "alice" ["token2"] [1000]
        DepositMessage.noDirective
      = .error "Only the configured token_id can be deposited" ∧
    mt_on_transfer sampleVault "intruder" "alice" ["token1"] [1000]
        DepositMessage.noDirective
      ≠ .ok ([1000], sampleVault) := by
  refine ⟨rfl, rfl, rfl, fun hc => ?_⟩
  have h1 : mt_on_transfer sampleVault "intruder" "alice" ["token1"] [1000]
      DepositMessage.noDirective
      = .error "Only the underlying asset can be deposited" := rfl
  exact Except.noConfusion (h1.symm.trans hc)

/-- C4 (amended): on any structural mismatch (wrong source contract, batch
length other than one, or wrong token id) the callback aborts with an error
— performing no state change, since an aborted call commits nothing — and
the transfer-and-notify protocol therefore observes the entire original
amount as unused and the vault state unchanged. -/
theorem C4_structural_mismatch_rejected (v : TokenizedMTVault)
    (predecessor sender : AccountId) (token_ids : List String)
    (amounts : List Nat) (msg : DepositMessage)
    (h : predecessor ≠ v.asset ∨ token_ids.length ≠ 1 ∨
         amounts.length ≠ 1 ∨ token_ids.getD 0 "" ≠ v.asset_token_id) :
    (∃ e, mt_on_transfer v predecessor sender token_ids amounts msg
        = .error e) ∧
    depositObservable v predecessor sender token_ids amounts msg
      = ([amounts.getD 0 0], v) := by
  have herr : ∃ e,
      mt_on_transfer v predecessor sender token_ids amounts msg
        = .error e := by
    rw [mt_on_transfer]
    by_cases h1 : predecessor ≠ v.asset
    · rw [if_pos h1]; exact ⟨_, rfl⟩
    · rw [if_neg h1]
      by_cases h2 : token_ids.length ≠ 1
      · rw [if_pos h2]; exact ⟨_, rfl⟩
      · rw [if_neg h2]
        by_cases h3 : amounts.length ≠ 1
        · rw [if_pos h3]; exact ⟨_, rfl⟩
        · rw [if_neg h3]
          by_cases h4 : token_ids.getD 0 "" ≠ v.asset_token_id
          · rw [if_pos h4]; exact ⟨_, rfl⟩
          · exfalso
            rcases h with h | h | h | h
            exacts [h1 h, h2 h, h3 h, h4 h]
  obtain ⟨e, he⟩ := herr
  exact ⟨⟨e, he⟩, by simp only [depositObservable, he]⟩

/-- Witness for C4 (amended): a deposit notified by `intruder` instead of
the configured asset contract errors in the callback and is observed as
fully unused with the vault unchanged. -/
theorem C4_structural_mismatch_rejected_witness :
    ("intruder" ≠ sampleVault.asset ∨ (["token1"] : List String).length ≠ 1 ∨
      ([1000] : List Nat).length ≠ 1 ∨
      (["token1"] : List String).getD 0 "" ≠ sampleVault.asset_token_id) ∧
    ((∃ e, mt_on_transfer sampleVault "intruder" "alice" ["token1"] [1000]
        DepositMessage.noDirective = .error e) ∧
     depositObservable sampleVault "intruder" "alice" ["token1"] [1000]
        DepositMessage.noDirective
       = ([([1000] : List Nat).getD 0 0], sampleVault)) :=
  ⟨Or.inl (by decide),
   C4_structural_mismatch_rejected sampleVault "intruder" "alice" ["token1"]
     [1000] DepositMessage.noDirective (Or.inl (by decide))⟩

/-- C6: a deposit whose message carries `min_shares` is rejected in full
when the shares computed for the whole amount at the current rate (rounded
`Down` by `convert_to_shares`) fall short of `min_shares`: the callback
returns the entire amount as unused and the vault state is returned
unchanged — nothing is minted and no partial fill occurs. -/
theorem C6_min_shares_all_or_nothing (v : TokenizedMTVault)
    (sender : AccountId) (amount m : Nat) (msg : DepositMessage)
    (hmin : msg.min_shares = some m)
    (hlt : v.convert_to_shares amount < m) :
    mt_on_transfer v v.asset sender [v.asset_token_id] [amount] msg
      = .ok ([amount], v) := by
  have hrej : minSharesReject msg (v.convert_to_shares amount) = true := by
    simp [minSharesReject, hmin, hlt]
  rw [mt_on_transfer, if_neg (by simp), if_neg (by simp), if_neg (by simp),
    if_neg (by simp)]
  simp only [List.getD_cons_zero]
  rw [if_pos hrej]

/-- Witness for C6: on a 500-asset / 500-share vault a 1000-asset deposit
demanding at least 2000 shares (only 998 are obtainable) is rejected whole:
`[1000]` unused, state unchanged. -/
theorem C6_min_shares_all_or_nothing_witness :
    ((DepositMessage.mk (some 2000) none none none).min_shares
        = some 2000 ∧
      halfVault.convert_to_shares 1000 < 2000) ∧
    mt_on_transfer halfVault halfVault.asset "alice" [halfVault.asset_token_id]
        [1000] (DepositMessage.mk (some 2000) none none none)
      = .ok ([1000], halfVault) :=
  ⟨⟨rfl, by decide⟩,
   C6_min_shares_all_or_nothing halfVault "alice" 1000 2000
     (DepositMessage.mk (some 2000) none none none) rfl (by decide)⟩

/-- C5: a deposit whose computed used amount is zero is rejected — the
callback aborts (so nothing is minted and `total_assets` is unchanged) and
the deposit is observed as fully unused.  In particular a plain 1-asset
deposit into the 1000-asset / 1000-share vault mints nothing and leaves
`total_assets` at 1000 (the witness instantiates exactly that scenario). -/
theorem C5_zero_used_deposit_rejected (v : TokenizedMTVault)
    (sender : AccountId) (amount : Nat) (msg : DepositMessage)
    (hnomin : minSharesReject msg (v.convert_to_shares amount) = false)
    (hzero : internal_convert_to_assets v.total_assets v.token.total_supply
        (capShares msg (v.convert_to_shares amount)) .Up = 0) :
    mt_on_transfer v v.asset sender [v.asset_token_id] [amount] msg
      = .error "No assets to deposit" ∧
    depositObservable v v.asset sender [v.asset_token_id] [amount] msg
      = ([amount], v) := by
  have herr : mt_on_transfer v v.asset sender [v.asset_token_id] [amount] msg
      = .error "No assets to deposit" := by
    rw [mt_on_transfer, if_neg (by simp), if_neg (by simp), if_neg (by simp),
      if_neg (by simp)]
    simp only [List.getD_cons_zero]
    rw [if_neg (by simp [hnomin])]
    simp only [depositCommit, hzero]
    rw [if_pos (Nat.zero_le amount)]
    rfl
  exact ⟨herr, by simp only [depositObservable, herr, List.getD_cons_zero]⟩

/-- Witness for C5: the inflation-resistance scenario — `total_assets =
1000`, `total_shares = 1000`, plain deposit of 1 asset: the callback aborts
and the observation is `[1]` unused with the vault unchanged (0 shares
minted, `total_assets` still 1000). -/
theorem C5_zero_used_deposit_rejected_witness :
    (minSharesReject DepositMessage.noDirective
        (sampleVault.convert_to_shares 1) = false ∧
      internal_convert_to_assets sampleVault.total_assets
        sampleVault.token.total_supply
        (capShares DepositMessage.noDirective
          (sampleVault.convert_to_shares 1)) .Up = 0) ∧
    (mt_on_transfer sampleVault sampleVault.asset "attacker" ["token1"] [1]
        DepositMessage.noDirective = .error "No assets to deposit" ∧
     depositObservable sampleVault sampleVault.asset "attacker" ["token1"] [1]
        DepositMessage.noDirective = ([1], sampleVault)) :=
  ⟨⟨by decide, by decide⟩,
   C5_zero_used_deposit_rejected sampleVault "attacker" 1
     DepositMessage.noDirective (by decide) (by decide)⟩

/-- The two permitted observations after a completed withdrawal call (§4.3):
either the transfer succeeded and exactly `shares` left the caller's balance,
`total_assets` dropped by exactly `assets`, the receiver's external balance
grew by `assets` and the call returned `assets`; or the transfer failed and
every observable vault field equals its pre-call value with the call
returning `0`. -/
def withdrawalOutcome (v : TokenizedMTVault) (caller : AccountId)
    (shares assets recvBal : Nat) (result : PromiseResult) (ret : Nat)
    (v' : TokenizedMTVault) (recv' : Nat) : Prop :=
  (result = .Successful ∧
    shares ≤ v.token.balance_of caller ∧
    v'.token.balance_of caller = v.token.balance_of caller - shares ∧
    (∀ b, b ≠ caller → v'.token.balance_of b = v.token.balance_of b) ∧
    v'.token.total_supply = v.token.total_supply - shares ∧
    assets ≤ v.total_assets ∧
    v'.total_assets = v.total_assets - assets ∧
    v'.asset = v.asset ∧ v'.asset_token_id = v.asset_token_id ∧
    v'.owner = v.owner ∧
    recv' = recvBal + assets ∧ ret = assets) ∨
  (result = .Failed ∧
    (∀ b, v'.token.balance_of b = v.token.balance_of b) ∧
    v'.token.total_supply = v.token.total_supply ∧
    v'.total_assets = v.total_assets ∧
    v'.asset = v.asset ∧ v'.asset_token_id = v.asset_token_id ∧
    v'.owner = v.owner ∧
    recv' = recvBal ∧ ret = 0)

/-- Any committing step followed by transfer settlement lands in one of the
two `withdrawalOutcome` observations. -/
theorem execute_settle_outcome (v : TokenizedMTVault) (caller : AccountId)
    (rid : Option AccountId) (shares assets recvBal : Nat)
    (result : PromiseResult) (ret : Nat) (v' : TokenizedMTVault)
    (recv' : Nat)
    (h : (do
        let (v1, ctx) ← internal_execute_withdrawal v caller rid shares assets
        settleWithdrawal v1 ctx recvBal result) = .ok (ret, v', recv')) :
    withdrawalOutcome v caller shares assets recvBal result ret v' recv' := by
  cases hexec : internal_execute_withdrawal v caller rid shares assets with
  | error e =>
      rw [hexec] at h
      exact absurd h (by simp [bind, Except.bind])
  | ok p =>
      obtain ⟨v1, ctx⟩ := p
      rw [hexec] at h
      simp only [bind, Except.bind] at h
      obtain ⟨hsb, hss, hat, hco, hcr, hcs, hca, hacc, hsup, hta, has, hatid,
        hown⟩ := internal_execute_withdrawal_ok v caller rid shares assets v1
          ctx hexec
      cases result with
      | Successful =>
          rw [settleWithdrawal] at h
          simp only [resolve_withdraw, bind, Except.bind, externalTransfer,
            Except.ok.injEq, Prod.mk.injEq] at h
          obtain ⟨hret, hv', hrecv⟩ := h
          subst hv'
          left
          refine ⟨rfl, hsb, ?_, ?_, hsup, hat, hta, has, hatid, hown, ?_, ?_⟩
          · rw [FungibleToken.balance_of, hacc, lookupBal_setBal_same]
          · intro b hb
            rw [FungibleToken.balance_of, hacc,
              lookupBal_setBal_other _ _ _ _ hb]
            rfl
          · rw [← hrecv, hca]
          · rw [← hret, hca]
      | Failed =>
          rw [settleWithdrawal] at h
          cases hres : resolve_withdraw v1 ctx.owner ctx.receiver ctx.shares
              ctx.assets .Failed with
          | error e =>
              rw [hres] at h
              exact absurd h (by simp [bind, Except.bind])
          | ok q =>
              obtain ⟨r0, v2⟩ := q
              rw [hres] at h
              simp only [bind, Except.bind, externalTransfer,
                Except.ok.injEq, Prod.mk.injEq] at h
              obtain ⟨hret, hv', hrecv⟩ := h
              subst hv'
              rw [hco, hcs, hca] at hres
              obtain ⟨hr0, hacc2, hsup2, hta2, has2, hatid2, hown2⟩ :=
                resolve_withdraw_failed_ok v1 caller ctx.receiver shares
                  assets r0 v2 hres
              have hb1 : v1.token.balance_of caller
                  = v.token.balance_of caller - shares := by
                rw [FungibleToken.balance_of, hacc, lookupBal_setBal_same]
              right
              refine ⟨rfl, ?_, ?_, ?_, ?_, ?_, ?_, hrecv.symm, ?_⟩
              · intro b
                by_cases hb : b = caller
                · subst hb
                  rw [FungibleToken.balance_of, hacc2, lookupBal_setBal_same,
                    hb1]
                  omega
                · rw [FungibleToken.balance_of, hacc2,
                    lookupBal_setBal_other _ _ _ _ hb, ← FungibleToken.balance_of,
                    FungibleToken.balance_of, hacc,
                    lookupBal_setBal_other _ _ _ _ hb]
                  rfl
              · rw [hsup2, hsup]
                omega
              · rw [hta2, hta]
                omega
              · rw [has2, has]
              · rw [hatid2, hatid]
              · rw [hown2, hown]
              · rw [← hret, hr0]

/-- C1: every completed `redeem` or `withdraw` call is all-or-nothing —
either the burned shares left the caller's balance, `total_assets` dropped
by the computed assets, the receiver was paid those assets and the call
returned them; or (failed transfer) every observable field equals its
pre-call value and the call returned 0.  No completed call burns shares
without paying assets. -/
theorem C1_withdrawal_atomicity :
    (∀ (v : TokenizedMTVault) (caller : AccountId)
        (attached sharesArg : Nat) (rid : Option AccountId) (recvBal : Nat)
        (result : PromiseResult) (ret : Nat) (v' : TokenizedMTVault)
        (recv' : Nat),
      redeemFlow v caller attached sharesArg rid recvBal result
          = .ok (ret, v', recv') →
      withdrawalOutcome v caller sharesArg
        (internal_convert_to_assets v.total_assets v.token.total_supply
          sharesArg .Down) recvBal result ret v' recv') ∧
    (∀ (v : TokenizedMTVault) (caller : AccountId)
        (attached assetsArg : Nat) (rid : Option AccountId) (recvBal : Nat)
        (result : PromiseResult) (ret : Nat) (v' : TokenizedMTVault)
        (recv' : Nat),
      withdrawFlow v caller attached assetsArg rid recvBal result
          = .ok (ret, v', recv') →
      withdrawalOutcome v caller
        (internal_convert_to_shares v.total_assets v.token.total_supply
          assetsArg .Up) assetsArg recvBal result ret v' recv') := by
  constructor
  · intro v caller attached sharesArg rid recvBal result ret v' recv' h
    rw [redeemFlow] at h
    by_cases hy : attached ≠ 1
    · rw [TokenizedMTVault.redeem, if_pos hy] at h
      exact absurd h (by simp [bind, Except.bind])
    · rw [TokenizedMTVault.redeem, if_neg hy] at h
      by_cases hb : sharesArg ≤ v.max_redeem caller
      · rw [if_pos hb] at h
        exact execute_settle_outcome v caller rid sharesArg _ recvBal result
          ret v' recv' h
      · rw [if_neg hb] at h
        exact absurd h (by simp [bind, Except.bind])
  · intro v caller attached assetsArg rid recvBal result ret v' recv' h
    rw [withdrawFlow] at h
    by_cases hy : attached ≠ 1
    · rw [TokenizedMTVault.withdraw, if_pos hy] at h
      exact absurd h (by simp [bind, Except.bind])
    · rw [TokenizedMTVault.withdraw, if_neg hy] at h
      by_cases hb : assetsArg ≤ v.max_withdraw caller
      · rw [if_pos hb] at h
        exact execute_settle_outcome v caller rid _ assetsArg recvBal result
          ret v' recv' h
      · rw [if_neg hb] at h
        exact absurd h (by simp [bind, Except.bind])

/-- Witness for C1: redeeming 500 shares from the 1000/1000 vault with a
successful transfer yields `.ok (500, …)` — the resulting state is the
500/500 vault and the receiver's external balance moved from 0 to 500 — and
that run satisfies `withdrawalOutcome`. -/
theorem C1_withdrawal_atomicity_witness :
    redeemFlow sampleVault "alice" 1 500 none 0 .Successful
        = .ok (500, halfVault, 500) ∧
    withdrawalOutcome sampleVault "alice" 500 500 0 .Successful 500
      halfVault 500 :=
  ⟨rfl,
   C1_withdrawal_atomicity.1 sampleVault "alice" 1 500 none 0 .Successful
     500 halfVault 500 rfl⟩

/-- C7: an accepted deposit conserves the amount — the used assets never
exceed the transferred amount (`used + unused = amount`), exactly `shares`
are credited to the receiving owner in the share ledger, and `total_assets`
grows by exactly `used` through a checked add whose overflow fails the whole
call. -/
theorem C7_deposit_conservation (v : TokenizedMTVault) (sender : AccountId)
    (amount : Nat) (msg : DepositMessage) (owner : AccountId)
    (shares used : Nat)
    (howner : owner = msg.receiver_id.getD sender)
    (hshares : shares = capShares msg (v.convert_to_shares amount))
    (hused : used = internal_convert_to_assets v.total_assets
        v.token.total_supply shares .Up)
    (hnomin : minSharesReject msg (v.convert_to_shares amount) = false)
    (hpos : 0 < used)
    (hbal : v.token.balance_of owner + shares < U128LIMIT)
    (hsup : v.token.total_supply + shares < U128LIMIT) :
    used ≤ amount ∧ used + (amount - used) = amount ∧
    (if v.total_assets + used < U128LIMIT then
      ∃ v', mt_on_transfer v v.asset sender [v.asset_token_id] [amount] msg
          = .ok ([amount - used], v') ∧
        v'.token.balance_of owner = v.token.balance_of owner + shares ∧
        v'.token.total_supply = v.token.total_supply + shares ∧
        v'.total_assets = v.total_assets + used
     else mt_on_transfer v v.asset sender [v.asset_token_id] [amount] msg
        = .error "Total assets overflow") := by
  have hcs : shares ≤ v.convert_to_shares amount := by
    rw [hshares]
    exact capShares_le msg _
  have hle : used ≤ amount := by
    rw [hused]
    exact convert_roundtrip_le v.total_assets v.token.total_supply amount
      shares hcs
  have hmain : mt_on_transfer v v.asset sender [v.asset_token_id] [amount] msg
      = if v.total_assets + used < U128LIMIT then
          .ok ([amount - used],
            { v with
               token := { accounts := setBal v.token.accounts owner
                            (v.token.balance_of owner + shares),
                          total_supply := v.token.total_supply + shares },
               total_assets := v.total_assets + used })
        else .error "Total assets overflow" := by
    rw [mt_on_transfer, if_neg (by simp), if_neg (by simp), if_neg (by simp),
      if_neg (by simp)]
    simp only [List.getD_cons_zero]
    rw [if_neg (by simp [hnomin])]
    simp only [depositCommit, ← hshares, ← hused, ← howner]
    rw [if_pos hle, if_pos hpos]
    simp only [FungibleToken.internal_deposit, if_pos hbal, if_pos hsup,
      bind, Except.bind]
  refine ⟨hle, by omega, ?_⟩
  by_cases hta : v.total_assets + used < U128LIMIT
  · rw [if_pos hta]
    refine ⟨_, by rw [hmain, if_pos hta], ?_, rfl, rfl⟩
    rw [FungibleToken.balance_of, lookupBal_setBal_same]
  · rw [if_neg hta, hmain, if_neg hta]

/-- Witness for C7: the first integration-test deposit — 1000 assets into
the empty vault, no directive — uses the full amount, credits 1000 shares
to `alice` and raises `total_assets` from 0 to 1000. -/
theorem C7_deposit_conservation_witness :
    ("alice" = (DepositMessage.noDirective.receiver_id).getD "alice" ∧
      (1000 : Nat) = capShares DepositMessage.noDirective
        (emptyVault.convert_to_shares 1000) ∧
      (1000 : Nat) = internal_convert_to_assets emptyVault.total_assets
        emptyVault.token.total_supply 1000 .Up ∧
      minSharesReject DepositMessage.noDirective
        (emptyVault.convert_to_shares 1000) = false ∧
      (0 : Nat) < 1000 ∧
      emptyVault.token.balance_of "alice" + 1000 < U128LIMIT ∧
      emptyVault.token.total_supply + 1000 < U128LIMIT) ∧
    ((1000 : Nat) ≤ 1000 ∧ 1000 + (1000 - 1000) = 1000 ∧
      (if emptyVault.total_assets + 1000 < U128LIMIT then
        ∃ v', mt_on_transfer emptyVault emptyVault.asset "alice"
            [emptyVault.asset_token_id] [1000] DepositMessage.noDirective
            = .ok ([1000 - 1000], v') ∧
          v'.token.balance_of "alice"
            = emptyVault.token.balance_of "alice" + 1000 ∧
          v'.token.total_supply = emptyVault.token.total_supply + 1000 ∧
          v'.total_assets = emptyVault.total_assets + 1000
       else mt_on_transfer emptyVault emptyVault.asset "alice"
          [emptyVault.asset_token_id] [1000] DepositMessage.noDirective
          = .error "Total assets overflow")) :=
  ⟨⟨rfl, by decide, by decide, by decide, by decide, by decide, by decide⟩,
   C7_deposit_conservation emptyVault "alice" 1000 DepositMessage.noDirective
     "alice" 1000 1000 rfl (by decide) (by decide) (by decide) (by decide)
     (by decide) (by decide)⟩

end TokenizedVault
